import Mathlib

/-!
Verification development for the Master Orchestrator (`dMasterServer/MasterServer.cpp`).

The embedding models the decoded-message level of the protocol: each `case` of
`HandlePacket`'s switch becomes a Lean function on an explicit `MasterState`,
and the fixed-tick driver's per-instance affirmation-timeout body becomes
`processInstanceTick`.  Outbound packets are accumulated in `MasterState.out`.
`Instance` objects, which C++ addresses by pointer, carry a surrogate identity
field `iid`; the registry is the list `MasterState.instances`.

The InstanceManager and Instance classes themselves are not part of the sources
here (only their call sites in `MasterServer.cpp` are), so their operations are
modelled from the specification and marked as such in their doc comments.
-/

/-- Transport-level peer identity: `SystemAddress` is `(binaryAddress, port)`,
compared by value. -/
structure SysAddr where
  binaryAddress : Nat
  port : Nat
deriving DecidableEq, Repr

/-- A queued zone-transfer request: `{ requestID, mythranShift, requester sysAddr }`. -/
structure TransferRequest where
  requestID : Nat
  mythranShift : Bool
  requester : SysAddr
deriving DecidableEq, Repr

/-- Server kinds read from a `SERVER_INFO` payload. -/
inductive ServerType where
  | World
  | Auth
  | Chat
  | Master
deriving DecidableEq, Repr

/-- One running world-server process, as tracked by the instance registry.
Field names follow the C++ getters (`GetMapID`, `GetIsReady`, ...).  `iid` is a
surrogate for C++ pointer identity of the heap-allocated `Instance`. -/
structure Instance where
  iid : Nat
  ip : String
  port : Nat
  mapID : Nat
  instanceID : Nat
  cloneID : Nat
  sysAddr : SysAddr
  isReady : Bool
  isShuttingDown : Bool
  shutdownComplete : Bool
  players : Nat
  softCap : Nat
  pendingRequests : List TransferRequest
  pendingAffirmations : List TransferRequest
  affirmationTimeout : Nat
  privatePassword : Option String
deriving DecidableEq, Repr

/-- Outbound packets emitted by the master, at decoded-payload level. -/
inductive OutMsg where
  | persistentIDResponse (dest : SysAddr) (requestID : Nat) (objID : Nat)
  | zoneTransferResponse (dest : SysAddr) (requestID : Nat) (mythranShift : Bool)
      (mapID : Nat) (instanceID : Nat) (cloneID : Nat) (ip : String) (port : Nat)
  | newSessionAlert (sessionKey : Nat) (username : String)
  | sessionKeyResponse (dest : SysAddr) (sessionKey : Nat) (username : String)
  | prepZone (dest : SysAddr) (zoneID : Nat)
  | shutdownMsg (dest : SysAddr)
  | respondInstances (dest : SysAddr) (objectID : Nat) (zones : List (Nat × Nat × Nat))
deriving DecidableEq, Repr

/-- The master's mutable state: the instance registry, the session-key map
(`activeSessions`), the remembered chat peer, the shutdown flags, the
InstanceManager's fresh-id sources, and the accumulated outbound traffic.
`chatSpawnCount` counts invocations of `StartChatServer`. -/
structure MasterState where
  instances : List Instance
  activeSessions : List (Nat × String)
  chatServerMasterPeerSysAddr : SysAddr
  shouldShutdown : Bool
  shutdownSequenceStarted : Bool
  objIdSaved : Bool
  nextIid : Nat
  nextPort : Nat
  nextInstanceID : Nat
  externalIP : String
  out : List OutMsg
  chatSpawnCount : Nat
deriving DecidableEq, Repr

/-- Modelled from the spec: registry lookup `findByMapAndInstance` — find the
first instance matching `(mapID, instanceID)` (`cloneID` is intentionally not
part of the key). -/
def findInstance (l : List Instance) (mapID instanceID : Nat) : Option Instance :=
  l.find? fun i => decide (i.mapID = mapID) && decide (i.instanceID = instanceID)

/-- Modelled from the spec: registry lookup by transport peer address. -/
def getInstanceBySysAddr (l : List Instance) (a : SysAddr) : Option Instance :=
  l.find? fun i => decide (i.sysAddr = a)

/-- Modelled from the spec: `isPortInUse(port)` over the registry. -/
def isPortInUse (l : List Instance) (p : Nat) : Bool :=
  l.any fun i => decide (i.port = p)

/-- Modelled from the spec: `findPrivate(password)` — lookup by private-zone
password. -/
def findPrivateInstance (l : List Instance) (pwd : String) : Option Instance :=
  l.find? fun i => decide (i.privatePassword = some pwd)

/-- Apply `f` to the registry entry (entries) with pointer identity `iid`;
models in-place mutation through an `Instance*`. -/
def updateInst (l : List Instance) (iid : Nat) (f : Instance → Instance) : List Instance :=
  l.map fun i => if i.iid = iid then f i else i

/-- State-level version of `updateInst`. -/
def updateInstS (s : MasterState) (iid : Nat) (f : Instance → Instance) : MasterState :=
  { s with instances := updateInst s.instances iid f }

/-- Registry lookup by pointer identity. -/
def instById (l : List Instance) (iid : Nat) : Option Instance :=
  l.find? fun j => decide (j.iid = iid)

/-- Modelled from the spec: the Instance freshly launched by zone resolution —
spawned with a free port and a fresh `instanceID`, inserted with `ready = false`. -/
def spawnInstance (s : MasterState) (mapID cloneID : Nat) : Instance :=
  { iid := s.nextIid
    ip := s.externalIP
    port := s.nextPort
    mapID := mapID
    instanceID := s.nextInstanceID
    cloneID := cloneID
    sysAddr := ⟨0, 0⟩
    isReady := false
    isShuttingDown := false
    shutdownComplete := false
    players := 0
    softCap := 12
    pendingRequests := []
    pendingAffirmations := []
    affirmationTimeout := 0
    privatePassword := none }

/-- Modelled from the spec: zone resolution `getInstance(mapID, asPrivate=false,
cloneID)`.  Scan known instances: the first non-shutting-down, not-private,
matching `mapID` whose player count is below `softCap` satisfies the lookup;
if none, launch a new world-server process and insert it with `ready = false`. -/
def getInstance (s : MasterState) (mapID cloneID : Nat) : Instance × MasterState :=
  match s.instances.find? (fun i =>
      !i.isShuttingDown && i.privatePassword.isNone &&
      decide (i.mapID = mapID) && decide (i.players < i.softCap)) with
  | some i => (i, s)
  | none =>
      let ni := spawnInstance s mapID cloneID
      (ni, { s with
              instances := s.instances ++ [ni]
              nextIid := s.nextIid + 1
              nextPort := s.nextPort + 1
              nextInstanceID := s.nextInstanceID + 1 })

/-- Modelled from the spec: `RequestAffirmation(instance, req)` — send
`PREP_ZONE` to the instance and add `req` to its `pendingAffirmations`. -/
def requestAffirmation (s : MasterState) (inst : Instance) (req : TransferRequest) : MasterState :=
  let s1 := { s with out := s.out ++ [OutMsg.prepZone inst.sysAddr inst.mapID] }
  updateInstS s1 inst.iid fun i => { i with pendingAffirmations := i.pendingAffirmations ++ [req] }

/-- Route one transfer request to the instance resolved for `(mapID, cloneID)`:
queue it while the instance is not ready, otherwise start the affirmation
handshake.  This is the shared path of `MSG_MASTER_REQUEST_ZONE_TRANSFER` and
of redirection. -/
def routeRequest (s : MasterState) (mapID cloneID : Nat) (req : TransferRequest) : MasterState :=
  let r := getInstance s mapID cloneID
  if r.1.isReady then
    requestAffirmation r.2 r.1 req
  else
    updateInstS r.2 r.1.iid fun i => { i with pendingRequests := i.pendingRequests ++ [req] }

/-- The `MSG_MASTER_REQUEST_ZONE_TRANSFER` case of `HandlePacket`: resolve the
instance for `(zoneID, zoneClone)`; if it is not ready, append the request to
`pendingRequests` (no response); otherwise invoke `RequestAffirmation`. -/
def handleRequestZoneTransfer (s : MasterState) (sender : SysAddr) (requestID : Nat)
    (mythranShift : Bool) (zoneID zoneClone : Nat) : MasterState :=
  routeRequest s zoneID zoneClone ⟨requestID, mythranShift, sender⟩

/-- Ordered-map insertion modelling `std::map<uint32_t, std::string>::insert`:
the pair is inserted at its key position, and the insertion is a NO-OP when the
key is already present (C++ `insert` does not overwrite). -/
def mapInsert : List (Nat × String) → Nat → String → List (Nat × String)
  | [], k, v => [(k, v)]
  | (k1, v1) :: rest, k, v =>
      if k < k1 then (k, v) :: (k1, v1) :: rest
      else if k = k1 then (k1, v1) :: rest
      else (k1, v1) :: mapInsert rest k v

/-- `std::map::erase(key)`: drop the entry (entries) with the given key. -/
def eraseKey (l : List (Nat × String)) (k : Nat) : List (Nat × String) :=
  l.filter fun p => !decide (p.1 = k)

/-- The `MSG_MASTER_SET_SESSION_KEY` case of `HandlePacket`: scan the session
map in iteration (key) order for an entry whose username matches; if found,
erase it and broadcast `NEW_SESSION_ALERT(sessionKey, username)`, stopping at
the first match; then `insert (sessionKey, username)`. -/
def handleSetSessionKey (s : MasterState) (sessionKey : Nat) (username : String) : MasterState :=
  match s.activeSessions.find? (fun p => decide (p.2 = username)) with
  | some p =>
      { s with
          activeSessions := mapInsert (eraseKey s.activeSessions p.1) sessionKey username
          out := s.out ++ [OutMsg.newSessionAlert sessionKey username] }
  | none =>
      { s with activeSessions := mapInsert s.activeSessions sessionKey username }

/-- The Instance record reconstructed by the `MSG_MASTER_SERVER_INFO` case:
`new Instance(theirIP, theirPort, theirZoneID, theirInstanceID, 0, 12, 12)`
with its `sysAddr` set to a copy of the sender's address. -/
def serverInfoInstance (s : MasterState) (sender : SysAddr) (theirPort theirZoneID theirInstanceID : Nat)
    (theirIP : String) : Instance :=
  { iid := s.nextIid
    ip := theirIP
    port := theirPort
    mapID := theirZoneID
    instanceID := theirInstanceID
    cloneID := 0
    sysAddr := sender
    isReady := false
    isShuttingDown := false
    shutdownComplete := false
    players := 0
    softCap := 12
    pendingRequests := []
    pendingAffirmations := []
    affirmationTimeout := 0
    privatePassword := none }

/-- The `MSG_MASTER_SERVER_INFO` case of `HandlePacket`: a World server on an
unknown port is reconstructed as a fresh registry entry; otherwise the instance
found by `(zoneID, uint16_t(instanceID))` has its `sysAddr` refreshed; a Chat
server additionally updates `chatServerMasterPeerSysAddr`. -/
def handleServerInfo (s : MasterState) (sender : SysAddr) (theirPort theirZoneID theirInstanceID : Nat)
    (theirServerType : ServerType) (theirIP : String) : MasterState :=
  let s1 :=
    if theirServerType = ServerType.World ∧ isPortInUse s.instances theirPort = false then
      { s with
          instances := s.instances ++ [serverInfoInstance s sender theirPort theirZoneID theirInstanceID theirIP]
          nextIid := s.nextIid + 1 }
    else
      match findInstance s.instances theirZoneID (theirInstanceID % 65536) with
      | some inst => updateInstS s inst.iid fun j => { j with sysAddr := sender }
      | none => s
  if theirServerType = ServerType.Chat then
    { s1 with chatServerMasterPeerSysAddr := sender }
  else s1

/-- The `MSG_MASTER_REQUEST_PRIVATE_ZONE` case of `HandlePacket`: look the
instance up by password; if missing, return with no effect; if found, send a
`ZONE_TRANSFER_RESPONSE` immediately (no affirmation handshake). -/
def handleRequestPrivateZone (s : MasterState) (sender : SysAddr) (requestID : Nat)
    (mythranShift : Bool) (password : String) : MasterState :=
  match findPrivateInstance s.instances password with
  | none => s
  | some inst =>
      { s with out := s.out ++ [OutMsg.zoneTransferResponse sender requestID mythranShift
          inst.mapID inst.instanceID inst.cloneID inst.ip inst.port] }

/-- Modelled from the spec: `AffirmTransfer(instance, requestID)` — remove the
matching request from `pendingAffirmations` and send `ZONE_TRANSFER_RESPONSE`
to its requester. -/
def affirmTransfer (s : MasterState) (inst : Instance) (requestID : Nat) : MasterState :=
  match inst.pendingAffirmations.find? (fun r => decide (r.requestID = requestID)) with
  | none => s
  | some req =>
      let s1 := updateInstS s inst.iid fun j =>
        { j with pendingAffirmations := j.pendingAffirmations.filter fun r => !decide (r.requestID = requestID) }
      { s1 with out := s1.out ++ [OutMsg.zoneTransferResponse req.requester requestID req.mythranShift
          inst.mapID inst.instanceID inst.cloneID inst.ip inst.port] }

/-- The `MSG_MASTER_AFFIRM_TRANSFER_RESPONSE` case of `HandlePacket`: if the
sender's address resolves to no instance, return silently; otherwise run
`AffirmTransfer`. -/
def handleAffirmTransferResponse (s : MasterState) (sender : SysAddr) (requestID : Nat) : MasterState :=
  match getInstanceBySysAddr s.instances sender with
  | none => s
  | some inst => affirmTransfer s inst requestID

/-- The `MSG_MASTER_SHUTDOWN_RESPONSE` case of `HandlePacket`: if the sender's
address resolves to no instance, return silently; otherwise mark the instance
as shutting down. -/
def handleShutdownResponse (s : MasterState) (sender : SysAddr) : MasterState :=
  match getInstanceBySysAddr s.instances sender with
  | none => s
  | some inst => updateInstS s inst.iid fun j => { j with isShuttingDown := true }

/-- The `MSG_MASTER_SHUTDOWN_UNIVERSE` case of `HandlePacket`: set the
`shouldShutdown` flag; nothing is sent. -/
def handleShutdownUniverse (s : MasterState) : MasterState :=
  { s with shouldShutdown := true }

/-- The `ID_DISCONNECTION_NOTIFICATION` / `ID_CONNECTION_LOST` branches of
`HandlePacket` (their state effects are identical): remove the instance
registered at the peer's address, if any, and spawn a replacement chat server
when the peer is the remembered chat peer and universe shutdown is not in
progress. -/
def handleDisconnect (s : MasterState) (sender : SysAddr) : MasterState :=
  let s1 :=
    match getInstanceBySysAddr s.instances sender with
    | some inst => { s with instances := s.instances.filter fun j => !decide (j.iid = inst.iid) }
    | none => s
  if sender = s.chatServerMasterPeerSysAddr ∧ s.shouldShutdown = false then
    { s1 with chatSpawnCount := s1.chatSpawnCount + 1 }
  else s1

/-- The `MSG_MASTER_GET_INSTANCES` case of `HandlePacket`.  The responding
instance's lookup result is dereferenced with no null guard, so the handler is
undefined (`none`) when `(respondingZoneID, respondingInstanceID)` matches no
registry entry; when it matches, `RESPOND_INSTANCES` is sent to that
instance's address.  `instancesPayload` is the list of `(mapID, cloneID,
instanceID)` triples written into the response: all instances, or those
filtered by the optional `zoneID`. -/
def instancesPayload (s : MasterState) (zoneID : Option Nat) : List (Nat × Nat × Nat) :=
  let selected : List Instance :=
    match zoneID with
    | none => s.instances
    | some z => s.instances.filter fun i => decide (i.mapID = z)
  selected.map fun i => (i.mapID, i.cloneID, i.instanceID)

def handleGetInstances (s : MasterState) (objectID : Nat) (zoneID : Option Nat)
    (respondingZoneID respondingInstanceID : Nat) : Option MasterState :=
  match findInstance s.instances respondingZoneID respondingInstanceID with
  | none => none
  | some respInst =>
      some { s with out := s.out ++ [OutMsg.respondInstances respInst.sysAddr objectID
        (instancesPayload s zoneID)] }

/-- Modelled from the spec: `RedirectPendingRequests(instance)` — every request
in both `pendingAffirmations` and `pendingRequests` is re-routed to a newly
resolved instance for the same `(mapID, cloneID)` via the normal path
(`routeRequest`), leaving the wedged instance's queues empty. -/
def redirectPendingRequests (s : MasterState) (iid : Nat) : MasterState :=
  match instById s.instances iid with
  | none => s
  | some i =>
      let reqs := i.pendingAffirmations ++ i.pendingRequests
      let s1 := updateInstS s iid fun j => { j with pendingAffirmations := [], pendingRequests := [] }
      reqs.foldl (fun acc req => routeRequest acc i.mapID i.cloneID req) s1

/-- The per-tick timeout update of one instance: incremented while
`pendingAffirmations` is non-empty, reset to 0 otherwise. -/
def bumpTimeout (i : Instance) : Nat :=
  if i.pendingAffirmations.isEmpty then 0 else i.affirmationTimeout + 1

/-- The per-instance body of the main loop's affirmation-timeout pass: bump or
reset `affirmationTimeout`; when it reaches exactly 1000, send the instance
`Shutdown`, mark it shutting down, and invoke `RedirectPendingRequests`. -/
def processInstanceTick (s : MasterState) (iid : Nat) : MasterState :=
  match instById s.instances iid with
  | none => s
  | some i =>
      let s1 := updateInstS s iid fun j => { j with affirmationTimeout := bumpTimeout i }
      if bumpTimeout i = 1000 then
        let s2 := { s1 with out := s1.out ++ [OutMsg.shutdownMsg i.sysAddr] }
        let s3 := updateInstS s2 iid fun j => { j with isShuttingDown := true }
        redirectPendingRequests s3 iid
      else s1

/-- Iterate the affirmation-timeout pass for one instance over `n` ticks. -/
def iterTickInstance (iid : Nat) : Nat → MasterState → MasterState
  | 0, s => s
  | Nat.succ n, s => iterTickInstance iid n (processInstanceTick s iid)

/-- The `done` test of the shutdown drain loop: every registry entry reports
`shutdownComplete`. -/
def allShutdownComplete (s : MasterState) : Bool :=
  s.instances.all fun i => i.shutdownComplete

/-- The drain loop of `ShutdownSequence`: each iteration receives and
dispatches inbound traffic (`handle t`), breaks as soon as every instance
reports `shutdownComplete`, and otherwise counts a tick, giving up when the
tick counter reaches the fuel bound (600 * 6 = 3600 ticks ≈ 60 s). -/
def drainLoop (handle : Nat → MasterState → MasterState) : Nat → Nat → MasterState → MasterState × Nat
  | 0, t, s => (s, t)
  | Nat.succ fuel, t, s =>
      let s1 := handle t s
      if allShutdownComplete s1 then (s1, t)
      else drainLoop handle fuel (t + 1) s1

/-- The entry work of `ShutdownSequence` before the drain loop: mark the
sequence started, send `Shutdown` to every registry entry, and save the
Persistent-ID allocator's high-water mark. -/
def shutdownSequencePrep (s : MasterState) : MasterState :=
  { s with
      shutdownSequenceStarted := true
      out := s.out ++ s.instances.map fun i => OutMsg.shutdownMsg i.sysAddr
      objIdSaved := true }

/-- `ShutdownSequence`: idempotent (returns immediately when already started);
otherwise prep then drain for at most 3600 ticks. -/
def shutdownSequence (handle : Nat → MasterState → MasterState) (s : MasterState) : MasterState × Nat :=
  if s.shutdownSequenceStarted then (s, 0)
  else drainLoop handle 3600 0 (shutdownSequencePrep s)

/-- Apply the inbound-dispatch function at ticks `t, t+1, ...` for `n`
iterations. -/
def iterHandleFrom (handle : Nat → MasterState → MasterState) : Nat → Nat → MasterState → MasterState
  | _, 0, s => s
  | t, Nat.succ n, s => iterHandleFrom handle (t + 1) n (handle t s)

/-- One main-loop check of the 10-minute universe-shutdown deadline, for a tick
counter `c` (`framesSinceKillUniverseCommand`): `none` means the loop breaks,
`some` carries the incremented counter. -/
def universeShutdownCheck (c : Nat) : Option Nat :=
  if 40000 ≤ c then none else some (c + 1)

/-- Run `n` main-loop iterations of the universe-shutdown countdown from
counter value `c`; `none` means the loop broke within those iterations. -/
def iterUniverse : Nat → Nat → Option Nat
  | 0, c => some c
  | Nat.succ n, c =>
      match universeShutdownCheck c with
      | none => none
      | some c1 => iterUniverse n c1

/-- A peer address used by concrete examples. -/
def addrA : SysAddr := ⟨10, 2000⟩

/-- A second peer address used by concrete examples. -/
def addrB : SysAddr := ⟨20, 2001⟩

/-- A master state with an empty registry and session map. -/
def emptyState : MasterState :=
  { instances := []
    activeSessions := []
    chatServerMasterPeerSysAddr := addrA
    shouldShutdown := false
    shutdownSequenceStarted := false
    objIdSaved := false
    nextIid := 0
    nextPort := 3000
    nextInstanceID := 0
    externalIP := "localhost"
    out := []
    chatSpawnCount := 0 }

/-- A ready world instance used by concrete examples. -/
def inst0 : Instance :=
  { iid := 0
    ip := "10.0.0.5"
    port := 2005
    mapID := 1200
    instanceID := 1
    cloneID := 0
    sysAddr := ⟨7, 2005⟩
    isReady := true
    isShuttingDown := false
    shutdownComplete := false
    players := 0
    softCap := 12
    pendingRequests := []
    pendingAffirmations := []
    affirmationTimeout := 0
    privatePassword := none }

/-- A private instance (password `hunter2`) used by concrete examples. -/
def privInst : Instance :=
  { iid := 3
    ip := "10.0.0.9"
    port := 3301
    mapID := 1300
    instanceID := 2
    cloneID := 5
    sysAddr := ⟨9, 3301⟩
    isReady := true
    isShuttingDown := false
    shutdownComplete := false
    players := 0
    softCap := 12
    pendingRequests := []
    pendingAffirmations := []
    affirmationTimeout := 0
    privatePassword := some "hunter2" }

/-- A state whose registry holds the ready instance `inst0`. -/
def stateReady : MasterState := { emptyState with instances := [inst0], nextIid := 1 }

/-- A state whose registry holds the private instance `privInst`. -/
def statePriv : MasterState := { emptyState with instances := [privInst], nextIid := 4 }

/-- A state whose session map binds key 5 to user `bob`. -/
def stateBob : MasterState := { emptyState with activeSessions := [(5, "bob")] }

/-- A state whose session map binds key 100 to user `alice`. -/
def stateAlice : MasterState := { emptyState with activeSessions := [(100, "alice")] }

/-- An instance holding one unanswered affirmation with its timeout at 999,
used by concrete examples. -/
def instWedge : Instance :=
  { iid := 0
    ip := "10.0.0.5"
    port := 2005
    mapID := 1200
    instanceID := 1
    cloneID := 0
    sysAddr := ⟨7, 2005⟩
    isReady := true
    isShuttingDown := false
    shutdownComplete := false
    players := 0
    softCap := 12
    pendingRequests := []
    pendingAffirmations := [⟨7, false, addrB⟩]
    affirmationTimeout := 999
    privatePassword := none }

/-- A state whose registry holds the wedged instance `instWedge`. -/
def stateWedge : MasterState := { emptyState with instances := [instWedge], nextIid := 1 }

/-- C8: an `AFFIRM_TRANSFER_RESPONSE` or `SHUTDOWN_RESPONSE` from a sysAddr
with no registered instance is ignored: the handler returns the state
unchanged (registry, session map, instance fields and outbound traffic all
identical) and sends nothing. -/
theorem unknown_peer_ignored (s : MasterState) (sender : SysAddr) (requestID : Nat)
    (h : getInstanceBySysAddr s.instances sender = none) :
    handleAffirmTransferResponse s sender requestID = s ∧
    handleShutdownResponse s sender = s := by
  simp [handleAffirmTransferResponse, handleShutdownResponse, h]

/-- Witness for C8 at a concrete input: the empty registry knows no peer. -/
theorem unknown_peer_ignored_witness :
    getInstanceBySysAddr emptyState.instances addrB = none ∧
    (handleAffirmTransferResponse emptyState addrB 7 = emptyState ∧
     handleShutdownResponse emptyState addrB = emptyState) :=
  ⟨by decide, unknown_peer_ignored emptyState addrB 7 (by decide)⟩

/-- The universe-shutdown countdown runs to completion while the running
counter stays within the deadline. -/
theorem iterUniverse_run : ∀ (n c : Nat), c + n ≤ 40000 → iterUniverse n c = some (c + n) := by
  intro n
  induction n with
  | zero => intro c _; simp [iterUniverse]
  | succ n ih =>
      intro c h
      have hc : c < 40000 := by omega
      have : iterUniverse (n + 1) c = iterUniverse n (c + 1) := by
        simp [iterUniverse, universeShutdownCheck, Nat.not_le.mpr hc]
      rw [this, ih (c + 1) (by omega)]
      congr 1
      omega

/-- The universe-shutdown countdown breaks as soon as the counter reaches the
40000-tick deadline. -/
theorem iterUniverse_break : ∀ (n c : Nat), c + n = 40001 → c ≤ 40000 → iterUniverse n c = none := by
  intro n
  induction n with
  | zero => intro c h h2; omega
  | succ n ih =>
      intro c h h2
      by_cases hc : 40000 ≤ c
      · simp [iterUniverse, universeShutdownCheck, hc]
      · have : iterUniverse (n + 1) c = iterUniverse n (c + 1) := by
          simp [iterUniverse, universeShutdownCheck, hc]
        rw [this]
        exact ih (c + 1) (by omega) (by omega)

/-- C7: `SHUTDOWN_UNIVERSE` sets the `shouldShutdown` flag and sends nothing;
once set, the main loop's deadline countdown survives any number of iterations
up to 40000 and breaks exactly on the following check — a deadline counted in
loop iterations, not wall-clock time. -/
theorem universe_shutdown_tick_deadline (s : MasterState) :
    (handleShutdownUniverse s).shouldShutdown = true ∧
    (handleShutdownUniverse s).out = s.out ∧
    (handleShutdownUniverse s).instances = s.instances ∧
    (handleShutdownUniverse s).activeSessions = s.activeSessions ∧
    (∀ n, n ≤ 40000 → iterUniverse n 0 = some n) ∧
    iterUniverse 40001 0 = none := by
  refine ⟨rfl, rfl, rfl, rfl, ?_, ?_⟩
  · intro n hn
    have := iterUniverse_run n 0 (by omega)
    simpa using this
  · exact iterUniverse_break 40001 0 (by omega) (by omega)

/-- Witness for C7 at a concrete input. -/
theorem universe_shutdown_tick_deadline_witness :
    (handleShutdownUniverse emptyState).shouldShutdown = true ∧
    iterUniverse 40000 0 = some 40000 :=
  ⟨(universe_shutdown_tick_deadline emptyState).1,
   (universe_shutdown_tick_deadline emptyState).2.2.2.2.1 40000 (by omega)⟩

/-- C4: `REQUEST_PRIVATE_ZONE` with a matching password answers immediately
with a `ZONE_TRANSFER_RESPONSE` carrying the request's id and flag and the
instance's endpoint data — no `PREP_ZONE`, no `pendingAffirmations` entry, no
registry change; with no matching password the handler changes nothing and
sends nothing. -/
theorem private_zone_request (s : MasterState) (sender : SysAddr) (requestID : Nat)
    (mythranShift : Bool) (password : String) :
    (findPrivateInstance s.instances password = none →
        handleRequestPrivateZone s sender requestID mythranShift password = s) ∧
    (∀ inst, findPrivateInstance s.instances password = some inst →
        (handleRequestPrivateZone s sender requestID mythranShift password).out
          = s.out ++ [OutMsg.zoneTransferResponse sender requestID mythranShift
              inst.mapID inst.instanceID inst.cloneID inst.ip inst.port] ∧
        (handleRequestPrivateZone s sender requestID mythranShift password).instances = s.instances ∧
        (handleRequestPrivateZone s sender requestID mythranShift password).activeSessions
          = s.activeSessions) := by
  constructor
  · intro h
    simp [handleRequestPrivateZone, h]
  · intro inst h
    simp [handleRequestPrivateZone, h]

/-- Witness for C4 at a concrete input: `statePriv` holds the private
instance, so the password `hunter2` is answered directly. -/
theorem private_zone_request_witness :
    findPrivateInstance statePriv.instances "hunter2" = some privInst ∧
    (handleRequestPrivateZone statePriv addrB 9 true "hunter2").out
      = statePriv.out ++ [OutMsg.zoneTransferResponse addrB 9 true
          privInst.mapID privInst.instanceID privInst.cloneID privInst.ip privInst.port] :=
  ⟨by decide,
   ((private_zone_request statePriv addrB 9 true "hunter2").2 privInst (by decide)).1⟩

/-- C10: the `GET_INSTANCES` handler dereferences the responding-instance
lookup without a guard: its result is undefined exactly when
`(respondingZoneID, respondingInstanceID)` matches no registry entry, and
under the precondition that the lookup succeeds it sends `RESPOND_INSTANCES`
to the responding instance's address. -/
theorem get_instances_null_deref (s : MasterState) (objectID : Nat) (zoneID : Option Nat)
    (respondingZoneID respondingInstanceID : Nat) :
    (handleGetInstances s objectID zoneID respondingZoneID respondingInstanceID = none ↔
        findInstance s.instances respondingZoneID respondingInstanceID = none) ∧
    (∀ inst, findInstance s.instances respondingZoneID respondingInstanceID = some inst →
        handleGetInstances s objectID zoneID respondingZoneID respondingInstanceID
          = some { s with out := s.out ++ [OutMsg.respondInstances inst.sysAddr objectID
              (instancesPayload s zoneID)] }) := by
  cases h : findInstance s.instances respondingZoneID respondingInstanceID with
  | none => simp [handleGetInstances, h]
  | some inst => simp [handleGetInstances, h]

/-- Witness for C10 at a concrete input: with `inst0` registered, the lookup
succeeds and the response goes to `inst0`'s address; the same message against
the empty registry has an undefined (null-dereferencing) result. -/
theorem get_instances_null_deref_witness :
    (handleGetInstances stateReady 11 none 1200 1
        = some { stateReady with out := stateReady.out ++ [OutMsg.respondInstances inst0.sysAddr 11
            (instancesPayload stateReady none)] }) ∧
    handleGetInstances emptyState 11 none 1200 1 = none :=
  ⟨(get_instances_null_deref stateReady 11 none 1200 1).2 inst0 (by decide),
   (get_instances_null_deref emptyState 11 none 1200 1).1.mpr (by decide)⟩

/-- C9: on a disconnect or connection-lost event, a replacement chat server is
spawned iff the lost peer is the remembered chat peer and universe shutdown is
not in progress; and the instance registered at the peer's address, if any, is
removed from the registry. -/
theorem disconnect_chat_respawn (s : MasterState) (sender : SysAddr) :
    ((handleDisconnect s sender).chatSpawnCount = s.chatSpawnCount + 1 ↔
        (sender = s.chatServerMasterPeerSysAddr ∧ s.shouldShutdown = false)) ∧
    (¬(sender = s.chatServerMasterPeerSysAddr ∧ s.shouldShutdown = false) →
        (handleDisconnect s sender).chatSpawnCount = s.chatSpawnCount) ∧
    (∀ inst, getInstanceBySysAddr s.instances sender = some inst →
        inst ∉ (handleDisconnect s sender).instances) ∧
    (getInstanceBySysAddr s.instances sender = none →
        (handleDisconnect s sender).instances = s.instances) := by
  refine ⟨?_, ?_, ?_, ?_⟩
  · by_cases hc : sender = s.chatServerMasterPeerSysAddr ∧ s.shouldShutdown = false
    · obtain ⟨hc1, hc2⟩ := hc
      subst hc1
      cases h : getInstanceBySysAddr s.instances s.chatServerMasterPeerSysAddr <;>
        simp [handleDisconnect, h, hc2]
    · have hcount : (handleDisconnect s sender).chatSpawnCount = s.chatSpawnCount := by
        cases h : getInstanceBySysAddr s.instances sender <;> simp [handleDisconnect, h, hc]
      rw [hcount]
      constructor
      · intro hf
        exact absurd hf (by omega)
      · intro hcond
        exact absurd hcond hc
  · intro hc
    cases h : getInstanceBySysAddr s.instances sender <;>
      simp [handleDisconnect, h, hc]
  · intro inst hinst
    by_cases hc : sender = s.chatServerMasterPeerSysAddr ∧ s.shouldShutdown = false
    · obtain ⟨hc1, hc2⟩ := hc
      subst hc1
      simp [handleDisconnect, hinst, hc2, List.mem_filter]
    · simp [handleDisconnect, hinst, hc, List.mem_filter]
  · intro h
    by_cases hc : sender = s.chatServerMasterPeerSysAddr ∧ s.shouldShutdown = false
    · obtain ⟨hc1, hc2⟩ := hc
      subst hc1
      simp [handleDisconnect, h, hc2]
    · simp [handleDisconnect, h, hc]

/-- Witness for C9 at concrete inputs: losing the chat peer (no instance
registered there) bumps the spawn count; losing `inst0`'s peer removes it. -/
theorem disconnect_chat_respawn_witness :
    (handleDisconnect emptyState addrA).chatSpawnCount = emptyState.chatSpawnCount + 1 ∧
    inst0 ∉ (handleDisconnect stateReady inst0.sysAddr).instances :=
  ⟨(disconnect_chat_respawn emptyState addrA).1.mpr (by decide),
   (disconnect_chat_respawn stateReady inst0.sysAddr).2.2.1 inst0 (by decide)⟩

/-- Zone resolution emits no outbound traffic. -/
theorem getInstance_out (s : MasterState) (z c : Nat) : (getInstance s z c).2.out = s.out := by
  unfold getInstance
  cases h : s.instances.find? (fun i =>
      !i.isShuttingDown && i.privatePassword.isNone &&
      decide (i.mapID = z) && decide (i.players < i.softCap)) <;> simp

/-- C1: a `REQUEST_ZONE_TRANSFER` whose resolved instance is not ready has its
TransferRequest appended to that instance's `pendingRequests` with no response
sent; when the resolved instance is ready, the request enters the affirmation
flow instead (`RequestAffirmation` on that instance with that request, which
sends `PREP_ZONE`). -/
theorem zone_transfer_pending_or_affirm (s : MasterState) (sender : SysAddr) (requestID : Nat)
    (mythranShift : Bool) (zoneID zoneClone : Nat) :
    ((getInstance s zoneID zoneClone).1.isReady = false →
        handleRequestZoneTransfer s sender requestID mythranShift zoneID zoneClone
          = updateInstS (getInstance s zoneID zoneClone).2 (getInstance s zoneID zoneClone).1.iid
              (fun i => { i with pendingRequests := i.pendingRequests ++ [⟨requestID, mythranShift, sender⟩] }) ∧
        (handleRequestZoneTransfer s sender requestID mythranShift zoneID zoneClone).out = s.out) ∧
    ((getInstance s zoneID zoneClone).1.isReady = true →
        handleRequestZoneTransfer s sender requestID mythranShift zoneID zoneClone
          = requestAffirmation (getInstance s zoneID zoneClone).2 (getInstance s zoneID zoneClone).1
              ⟨requestID, mythranShift, sender⟩ ∧
        (handleRequestZoneTransfer s sender requestID mythranShift zoneID zoneClone).out
          = s.out ++ [OutMsg.prepZone (getInstance s zoneID zoneClone).1.sysAddr
              (getInstance s zoneID zoneClone).1.mapID]) := by
  constructor
  · intro h
    refine ⟨?_, ?_⟩
    · simp [handleRequestZoneTransfer, routeRequest, h]
    · simp [handleRequestZoneTransfer, routeRequest, h, updateInstS, getInstance_out]
  · intro h
    refine ⟨?_, ?_⟩
    · simp [handleRequestZoneTransfer, routeRequest, h]
    · simp [handleRequestZoneTransfer, routeRequest, h, requestAffirmation, updateInstS,
        getInstance_out]

/-- Witness for C1 at concrete inputs: against the empty registry the resolved
instance is freshly spawned and not ready, so nothing is sent; against
`stateReady` the resolved instance is ready, so `PREP_ZONE` goes out. -/
theorem zone_transfer_pending_or_affirm_witness :
    ((getInstance emptyState 1200 0).1.isReady = false ∧
      (handleRequestZoneTransfer emptyState addrB 7 false 1200 0).out = emptyState.out) ∧
    ((getInstance stateReady 1200 0).1.isReady = true ∧
      (handleRequestZoneTransfer stateReady addrB 7 false 1200 0).out
        = stateReady.out ++ [OutMsg.prepZone (getInstance stateReady 1200 0).1.sysAddr
            (getInstance stateReady 1200 0).1.mapID]) :=
  ⟨⟨by decide, ((zone_transfer_pending_or_affirm emptyState addrB 7 false 1200 0).1 (by decide)).2⟩,
   ⟨by decide, ((zone_transfer_pending_or_affirm stateReady addrB 7 false 1200 0).2 (by decide)).2⟩⟩

/-- Two distinct members both satisfying a predicate force a count of at
least two. -/
theorem two_le_countP {α : Type} {l : List α} {p : α → Bool} {a b : α}
    (ha : a ∈ l) (hb : b ∈ l) (hab : a ≠ b) (hpa : p a = true) (hpb : p b = true) :
    2 ≤ l.countP p := by
  induction l with
  | nil => cases ha
  | cons c t ih =>
      rcases List.mem_cons.mp ha with hac | hat
      · subst hac
        have hbt : b ∈ t := by
          rcases List.mem_cons.mp hb with hbc | hbt
          · exact absurd hbc.symm hab
          · exact hbt
        have h1 : 0 < t.countP p := List.countP_pos_iff.mpr ⟨b, hbt, hpb⟩
        rw [List.countP_cons_of_pos p t hpa]
        omega
      · rcases List.mem_cons.mp hb with hbc | hbt
        · subst hbc
          have h1 : 0 < t.countP p := List.countP_pos_iff.mpr ⟨a, hat, hpa⟩
          rw [List.countP_cons_of_pos p t hpb]
          omega
        · have := ih hat hbt
          have hmono : t.countP p ≤ (c :: t).countP p := by
            by_cases hc : p c = true
            · rw [List.countP_cons_of_pos p t hc]
              omega
            · rw [List.countP_cons_of_neg p t hc]
          omega

/-- Inserting a fresh key into the session map is, up to permutation, a cons. -/
theorem mapInsert_perm (l : List (Nat × String)) (k : Nat) (v : String)
    (h : ∀ p ∈ l, p.1 ≠ k) : List.Perm (mapInsert l k v) ((k, v) :: l) := by
  induction l with
  | nil => simp [mapInsert]
  | cons q t ih =>
      obtain ⟨qk, qv⟩ := q
      have hq : qk ≠ k := h (qk, qv) (List.mem_cons_self _ _)
      by_cases hlt : k < qk
      · simp only [mapInsert]
        rw [if_pos hlt]
      · have hne : ¬(k = qk) := fun he => hq he.symm
        simp only [mapInsert]
        rw [if_neg hlt, if_neg hne]
        have ht : List.Perm (mapInsert t k v) ((k, v) :: t) :=
          ih fun p hp => h p (List.mem_cons_of_mem _ hp)
        exact List.Perm.trans (List.Perm.cons _ ht) (List.Perm.swap _ _ _)



/-- C3 counterexample: `SET_SESSION_KEY(5, alice)` against the prior registry
`{5 → bob}` leaves NO entry for `alice` at all — `std::map::insert` is a no-op
on an occupied key — so the claim's postcondition (exactly one `alice` entry,
holding key 5) fails for this prior state. -/
theorem set_session_key_claim_counterexample :
    ¬(((handleSetSessionKey stateBob 5 "alice").activeSessions.countP
          (fun p => decide (p.2 = "alice")) = 1) ∧
      (5, "alice") ∈ (handleSetSessionKey stateBob 5 "alice").activeSessions) := by
  decide

/-- C3 (amended): for prior registries in which every entry holding key `k`
already has username `u` and at most one entry has username `u` — which holds
for all states this handler can itself reach — `SET_SESSION_KEY(k, u)` leaves
exactly one entry with username `u`, namely `(k, u)`, and a
`NEW_SESSION_ALERT` is broadcast iff an entry with username `u` existed
before. -/
theorem set_session_key_displacement (s : MasterState) (k : Nat) (u : String)
    (hkey : ∀ p ∈ s.activeSessions, p.1 = k → p.2 = u)
    (huniq : s.activeSessions.countP (fun p => decide (p.2 = u)) ≤ 1) :
    (handleSetSessionKey s k u).activeSessions.countP (fun p => decide (p.2 = u)) = 1 ∧
    (k, u) ∈ (handleSetSessionKey s k u).activeSessions ∧
    (∀ p ∈ (handleSetSessionKey s k u).activeSessions, p.2 = u → p = (k, u)) ∧
    ((∃ p ∈ s.activeSessions, p.2 = u) →
        (handleSetSessionKey s k u).out = s.out ++ [OutMsg.newSessionAlert k u]) ∧
    ((¬∃ p ∈ s.activeSessions, p.2 = u) → (handleSetSessionKey s k u).out = s.out) := by
  cases hf : s.activeSessions.find? (fun p => decide (p.2 = u)) with
  | none =>
      have hnou : ∀ p ∈ s.activeSessions, ¬(p.2 = u) := by
        intro p hp
        have := List.find?_eq_none.mp hf p hp
        simpa using this
      have hfresh : ∀ p ∈ s.activeSessions, p.1 ≠ k := by
        intro p hp hpk
        exact hnou p hp (hkey p hp hpk)
      have hperm := mapInsert_perm s.activeSessions k u hfresh
      have hsessions : (handleSetSessionKey s k u).activeSessions
          = mapInsert s.activeSessions k u := by
        simp [handleSetSessionKey, hf]
      have hzero : s.activeSessions.countP (fun p => decide (p.2 = u)) = 0 :=
        List.countP_eq_zero.mpr fun p hp => by simpa using hnou p hp
      refine ⟨?_, ?_, ?_, ?_, ?_⟩
      · rw [hsessions, hperm.countP_eq]
        rw [List.countP_cons_of_pos _ _ (by simp)]
        omega
      · rw [hsessions, hperm.mem_iff]
        exact List.mem_cons_self _ _
      · intro p hp hpu
        rw [hsessions] at hp
        rcases List.mem_cons.mp (hperm.mem_iff.mp hp) with he | hmem
        · exact he
        · exact absurd hpu (hnou p hmem)
      · intro ⟨p, hp, hpu⟩
        exact absurd hpu (hnou p hp)
      · intro _
        simp [handleSetSessionKey, hf]
  | some p0 =>
      have hp0l : p0 ∈ s.activeSessions := List.mem_of_find?_eq_some hf
      have hp0u : p0.2 = u := by
        have := List.find?_some hf
        simpa using this
      have hsessions : (handleSetSessionKey s k u).activeSessions
          = mapInsert (eraseKey s.activeSessions p0.1) k u := by
        simp [handleSetSessionKey, hf]
      have hout : (handleSetSessionKey s k u).out = s.out ++ [OutMsg.newSessionAlert k u] := by
        simp [handleSetSessionKey, hf]
      have hA : ∀ p ∈ eraseKey s.activeSessions p0.1, ¬(p.2 = u) := by
        intro p hp hpu
        have hmem := List.mem_filter.mp hp
        have hpl : p ∈ s.activeSessions := hmem.1
        have hpkey : p.1 ≠ p0.1 := by simpa using hmem.2
        have hne : p ≠ p0 := fun he => hpkey (by rw [he])
        have h2 : 2 ≤ s.activeSessions.countP (fun q => decide (q.2 = u)) :=
          two_le_countP hpl hp0l hne (by simpa using hpu) (by simpa using hp0u)
        omega
      have hfresh : ∀ p ∈ eraseKey s.activeSessions p0.1, p.1 ≠ k := by
        intro p hp hpk
        have hmem := List.mem_filter.mp hp
        exact hA p hp (hkey p hmem.1 hpk)
      have hperm := mapInsert_perm (eraseKey s.activeSessions p0.1) k u hfresh
      have hzero : (eraseKey s.activeSessions p0.1).countP (fun p => decide (p.2 = u)) = 0 :=
        List.countP_eq_zero.mpr fun p hp => by simpa using hA p hp
      refine ⟨?_, ?_, ?_, ?_, ?_⟩
      · rw [hsessions, hperm.countP_eq]
        rw [List.countP_cons_of_pos _ _ (by simp)]
        omega
      · rw [hsessions, hperm.mem_iff]
        exact List.mem_cons_self _ _
      · intro p hp hpu
        rw [hsessions] at hp
        rcases List.mem_cons.mp (hperm.mem_iff.mp hp) with he | hmem
        · exact he
        · exact absurd hpu (hA p hmem)
      · intro _
        exact hout
      · intro hno
        exact absurd ⟨p0, hp0l, hp0u⟩ hno

/-- Witness for the amended C3 at a concrete input: displacing `alice`'s old
key 100 with key 200 broadcasts an alert and leaves exactly `(200, alice)`. -/
theorem set_session_key_displacement_witness :
    (handleSetSessionKey stateAlice 200 "alice").activeSessions.countP
        (fun p => decide (p.2 = "alice")) = 1 ∧
    (200, "alice") ∈ (handleSetSessionKey stateAlice 200 "alice").activeSessions ∧
    (handleSetSessionKey stateAlice 200 "alice").out
      = stateAlice.out ++ [OutMsg.newSessionAlert 200 "alice"] := by
  have h := set_session_key_displacement stateAlice 200 "alice"
    (by decide) (by decide)
  exact ⟨h.1, h.2.1, h.2.2.2.1 ⟨(100, "alice"), by decide, by decide⟩⟩

/-- A registry write through a pointer identity commutes with any lookup whose
predicate the write preserves. -/
theorem find?_updateInst (p : Instance → Bool) (l : List Instance) (iid : Nat)
    (f : Instance → Instance) (hf : ∀ x, p (f x) = p x) :
    (updateInst l iid f).find? p = ((l.find? p).map fun x => if x.iid = iid then f x else x) := by
  unfold updateInst
  rw [List.find?_map]
  have hcomp : (p ∘ fun i => if i.iid = iid then f i else i) = p := by
    funext x
    by_cases h : x.iid = iid <;> simp [h, hf]
  rw [hcomp]

/-- C5: a `SERVER_INFO` from a World server on a port not in use reconstructs
an Instance with the announced endpoint data and the sender's sysAddr, so that
a subsequent `findByMapAndInstance(zoneID, instanceID)` returns it; with the
port already in use only the sysAddr of the instance matching
`(zoneID, uint16_t(instanceID))` is refreshed and nothing is added; a
`SERVER_INFO` from a Chat server updates the remembered chat-peer address. -/
theorem server_info_reconstruction (s : MasterState) (sender : SysAddr)
    (theirPort theirZoneID theirInstanceID : Nat) (theirServerType : ServerType)
    (theirIP : String) :
    (theirServerType = ServerType.World → isPortInUse s.instances theirPort = false →
        (handleServerInfo s sender theirPort theirZoneID theirInstanceID theirServerType theirIP).instances
          = s.instances ++ [serverInfoInstance s sender theirPort theirZoneID theirInstanceID theirIP] ∧
        (findInstance s.instances theirZoneID theirInstanceID = none →
          findInstance (handleServerInfo s sender theirPort theirZoneID theirInstanceID theirServerType theirIP).instances
              theirZoneID theirInstanceID
            = some (serverInfoInstance s sender theirPort theirZoneID theirInstanceID theirIP))) ∧
    (theirServerType = ServerType.World → isPortInUse s.instances theirPort = true →
        (handleServerInfo s sender theirPort theirZoneID theirInstanceID theirServerType theirIP).instances.length
          = s.instances.length ∧
        ((handleServerInfo s sender theirPort theirZoneID theirInstanceID theirServerType theirIP).instances.map
            (fun i => { i with sysAddr := addrA }))
          = s.instances.map (fun i => { i with sysAddr := addrA }) ∧
        (∀ inst, findInstance s.instances theirZoneID (theirInstanceID % 65536) = some inst →
          findInstance (handleServerInfo s sender theirPort theirZoneID theirInstanceID theirServerType theirIP).instances
              theirZoneID (theirInstanceID % 65536)
            = some { inst with sysAddr := sender })) ∧
    (theirServerType = ServerType.Chat →
        (handleServerInfo s sender theirPort theirZoneID theirInstanceID theirServerType theirIP).chatServerMasterPeerSysAddr
          = sender) := by
  refine ⟨?_, ?_, ?_⟩
  · intro hw hp
    subst hw
    constructor
    · simp [handleServerInfo, hp]
    · intro hnone
      have hinst : (handleServerInfo s sender theirPort theirZoneID theirInstanceID ServerType.World theirIP).instances
          = s.instances ++ [serverInfoInstance s sender theirPort theirZoneID theirInstanceID theirIP] := by
        simp [handleServerInfo, hp]
      rw [hinst]
      unfold findInstance at hnone ⊢
      rw [List.find?_append, hnone]
      simp [serverInfoInstance]
  · intro hw hp
    subst hw
    have hbranch : (handleServerInfo s sender theirPort theirZoneID theirInstanceID ServerType.World theirIP).instances
        = match findInstance s.instances theirZoneID (theirInstanceID % 65536) with
          | some inst => updateInst s.instances inst.iid fun j => { j with sysAddr := sender }
          | none => s.instances := by
      cases h : findInstance s.instances theirZoneID (theirInstanceID % 65536) <;>
        simp [handleServerInfo, hp, h, updateInstS]
    refine ⟨?_, ?_, ?_⟩
    · rw [hbranch]
      cases h : findInstance s.instances theirZoneID (theirInstanceID % 65536) <;>
        simp [h, updateInst]
    · rw [hbranch]
      cases h : findInstance s.instances theirZoneID (theirInstanceID % 65536) with
      | none => simp [h]
      | some inst =>
          simp only [h]
          unfold updateInst
          rw [List.map_map]
          refine List.map_congr_left ?_
          intro x _
          by_cases hx : x.iid = inst.iid <;> simp [hx]
    · intro inst hfind
      rw [hbranch, hfind]
      unfold findInstance at hfind ⊢
      rw [find?_updateInst _ _ _ _ (by intro x; rfl), hfind]
      simp
  · intro hc
    subst hc
    cases h : findInstance s.instances theirZoneID (theirInstanceID % 65536) <;>
      simp [handleServerInfo, h]

/-- Witness for C5 at concrete inputs: against the empty registry a World
`SERVER_INFO` reconstructs a findable instance; a Chat `SERVER_INFO` updates
the chat peer. -/
theorem server_info_reconstruction_witness :
    (findInstance (handleServerInfo emptyState addrB 2005 1200 1 ServerType.World "10.0.0.5").instances 1200 1
      = some (serverInfoInstance emptyState addrB 2005 1200 1 "10.0.0.5")) ∧
    (handleServerInfo emptyState addrB 2005 1200 1 ServerType.Chat "10.0.0.5").chatServerMasterPeerSysAddr
      = addrB :=
  ⟨((server_info_reconstruction emptyState addrB 2005 1200 1 ServerType.World "10.0.0.5").1
      rfl (by decide)).2 (by decide),
   (server_info_reconstruction emptyState addrB 2005 1200 1 ServerType.Chat "10.0.0.5").2.2 rfl⟩

/-- Lookup by identity after a write through any identity: the looked-up entry
is updated exactly when it is the write's target. -/
theorem instById_updateInst_any (l : List Instance) (tid iid : Nat) (f : Instance → Instance)
    (hf : ∀ x, (f x).iid = x.iid) (j : Instance) (h : instById l iid = some j) :
    instById (updateInst l tid f) iid = some (if j.iid = tid then f j else j) := by
  unfold instById at h ⊢
  rw [find?_updateInst _ _ _ _ (by intro x; rw [hf]), h]
  rfl

/-- Zone resolution never disturbs an existing registry entry. -/
theorem getInstance_instById (s : MasterState) (m c iid : Nat) (j : Instance)
    (h : instById s.instances iid = some j) :
    instById (getInstance s m c).2.instances iid = some j := by
  unfold getInstance
  cases hscan : s.instances.find? (fun i =>
      !i.isShuttingDown && i.privatePassword.isNone &&
      decide (i.mapID = m) && decide (i.players < i.softCap)) with
  | some i => simpa using h
  | none =>
      unfold instById at h ⊢
      simp only [List.find?_append, h]
      rfl

/-- Routing one request preserves the affirmation timeout and shutting-down
flag of every pre-existing registry entry. -/
theorem routeRequest_preserves (s : MasterState) (m c : Nat) (req : TransferRequest)
    (iid : Nat) (j : Instance) (h : instById s.instances iid = some j) :
    ∃ j2, instById (routeRequest s m c req).instances iid = some j2 ∧
        j2.affirmationTimeout = j.affirmationTimeout ∧
        j2.isShuttingDown = j.isShuttingDown ∧
        j2.sysAddr = j.sysAddr := by
  have h2 := getInstance_instById s m c iid j h
  unfold routeRequest
  by_cases hr : (getInstance s m c).1.isReady
  · rw [if_pos hr]
    unfold requestAffirmation updateInstS
    refine ⟨if j.iid = (getInstance s m c).1.iid then
        { j with pendingAffirmations := j.pendingAffirmations ++ [req] } else j, ?_, ?_, ?_, ?_⟩
    · exact instById_updateInst_any _ _ _ _ (by intro x; rfl) j h2
    · by_cases hj : j.iid = (getInstance s m c).1.iid <;> simp [hj]
    · by_cases hj : j.iid = (getInstance s m c).1.iid <;> simp [hj]
    · by_cases hj : j.iid = (getInstance s m c).1.iid <;> simp [hj]
  · rw [if_neg hr]
    unfold updateInstS
    refine ⟨if j.iid = (getInstance s m c).1.iid then
        { j with pendingRequests := j.pendingRequests ++ [req] } else j, ?_, ?_, ?_, ?_⟩
    · exact instById_updateInst_any _ _ _ _ (by intro x; rfl) j h2
    · by_cases hj : j.iid = (getInstance s m c).1.iid <;> simp [hj]
    · by_cases hj : j.iid = (getInstance s m c).1.iid <;> simp [hj]
    · by_cases hj : j.iid = (getInstance s m c).1.iid <;> simp [hj]

/-- Routing one request never retracts already-emitted outbound traffic. -/
theorem routeRequest_out_mono (s : MasterState) (m c : Nat) (req : TransferRequest)
    (msg : OutMsg) (h : msg ∈ s.out) : msg ∈ (routeRequest s m c req).out := by
  unfold routeRequest
  by_cases hr : (getInstance s m c).1.isReady
  · rw [if_pos hr]
    unfold requestAffirmation updateInstS
    simp only []
    rw [getInstance_out]
    exact List.mem_append_left _ h
  · rw [if_neg hr]
    unfold updateInstS
    simp only []
    rw [getInstance_out]
    exact h

/-- Folding the routing of a whole request list preserves the affirmation
timeout and shutting-down flag of every pre-existing registry entry. -/
theorem foldl_routeRequest_preserves (m c iid : Nat) :
    ∀ (reqs : List TransferRequest) (s : MasterState) (j : Instance),
    instById s.instances iid = some j →
    ∃ j2, instById (reqs.foldl (fun acc rq => routeRequest acc m c rq) s).instances iid = some j2 ∧
        j2.affirmationTimeout = j.affirmationTimeout ∧
        j2.isShuttingDown = j.isShuttingDown := by
  intro reqs
  induction reqs with
  | nil => exact fun s j h => ⟨j, h, rfl, rfl⟩
  | cons rq rest ih =>
      intro s j h
      obtain ⟨j1, h1, ha1, hb1, _⟩ := routeRequest_preserves s m c rq iid j h
      obtain ⟨j2, h2, ha2, hb2⟩ := ih (routeRequest s m c rq) j1 h1
      exact ⟨j2, by simpa using h2, by rw [ha2, ha1], by rw [hb2, hb1]⟩

/-- Folding the routing of a whole request list never retracts already-emitted
outbound traffic. -/
theorem foldl_routeRequest_out_mono (m c : Nat) :
    ∀ (reqs : List TransferRequest) (s : MasterState) (msg : OutMsg),
    msg ∈ s.out → msg ∈ (reqs.foldl (fun acc rq => routeRequest acc m c rq) s).out := by
  intro reqs
  induction reqs with
  | nil => exact fun s msg h => h
  | cons rq rest ih =>
      intro s msg h
      have h1 := routeRequest_out_mono s m c rq msg h
      simpa using ih (routeRequest s m c rq) msg h1

/-- Redirection preserves the affirmation timeout and shutting-down flag of
the wedged entry itself. -/
theorem redirect_preserves (s : MasterState) (iid : Nat) (j : Instance)
    (h : instById s.instances iid = some j) :
    ∃ j2, instById (redirectPendingRequests s iid).instances iid = some j2 ∧
        j2.affirmationTimeout = j.affirmationTimeout ∧
        j2.isShuttingDown = j.isShuttingDown := by
  unfold redirectPendingRequests
  rw [h]
  have hclear : instById (updateInstS s iid fun x =>
      { x with pendingAffirmations := [], pendingRequests := [] }).instances iid
      = some (if j.iid = iid then
          { j with pendingAffirmations := [], pendingRequests := [] } else j) :=
    instById_updateInst_any _ _ _ _ (by intro x; rfl) j h
  obtain ⟨j2, h2, ha2, hb2⟩ := foldl_routeRequest_preserves j.mapID j.cloneID iid
    (j.pendingAffirmations ++ j.pendingRequests) _ _ hclear
  refine ⟨j2, h2, ?_, ?_⟩
  · rw [ha2]
    by_cases hj : j.iid = iid <;> simp [hj]
  · rw [hb2]
    by_cases hj : j.iid = iid <;> simp [hj]

/-- Redirection never retracts already-emitted outbound traffic. -/
theorem redirect_out_mono (s : MasterState) (iid : Nat) (msg : OutMsg)
    (h : msg ∈ s.out) : msg ∈ (redirectPendingRequests s iid).out := by
  unfold redirectPendingRequests
  cases hf : instById s.instances iid with
  | none => exact h
  | some i =>
      exact foldl_routeRequest_out_mono i.mapID i.cloneID
        (i.pendingAffirmations ++ i.pendingRequests) _ msg h

/-- An entry found by pointer identity carries that identity. -/
theorem instById_iid (l : List Instance) (iid : Nat) (j : Instance)
    (h : instById l iid = some j) : j.iid = iid := by
  unfold instById at h
  have hp := List.find?_some h
  simpa using hp

/-- When the bumped (or reset) timeout misses 1000, the tick body only writes
the instance's new timeout. -/
theorem processInstanceTick_no_trigger (s : MasterState) (iid : Nat) (i : Instance)
    (h : instById s.instances iid = some i) (ht : bumpTimeout i ≠ 1000) :
    processInstanceTick s iid
      = updateInstS s iid fun j => { j with affirmationTimeout := bumpTimeout i } := by
  unfold processInstanceTick
  rw [h]
  simp only [if_neg ht]

/-- When the bumped timeout reaches exactly 1000, the tick body writes the
timeout, emits `Shutdown` to the instance, marks it shutting down, and invokes
redirection on it. -/
theorem processInstanceTick_trigger_eq (s : MasterState) (iid : Nat) (i : Instance)
    (h : instById s.instances iid = some i) (ht : bumpTimeout i = 1000) :
    processInstanceTick s iid = redirectPendingRequests
        (updateInstS
          { (updateInstS s iid fun j => { j with affirmationTimeout := bumpTimeout i }) with
              out := s.out ++ [OutMsg.shutdownMsg i.sysAddr] }
          iid fun j => { j with isShuttingDown := true }) iid := by
  unfold processInstanceTick
  rw [h]
  simp only [if_pos ht]
  rfl

/-- Observable effects of a triggering tick: the `Shutdown` message is in the
outbox and the instance ends marked shutting down with timeout 1000. -/
theorem processInstanceTick_trigger (s : MasterState) (iid : Nat) (i : Instance)
    (h : instById s.instances iid = some i) (ht : bumpTimeout i = 1000) :
    OutMsg.shutdownMsg i.sysAddr ∈ (processInstanceTick s iid).out ∧
    ∃ j, instById (processInstanceTick s iid).instances iid = some j ∧
        j.isShuttingDown = true ∧ j.affirmationTimeout = 1000 := by
  have hii : i.iid = iid := instById_iid _ _ _ h
  rw [processInstanceTick_trigger_eq s iid i h ht]
  have h1 : instById
      (updateInst s.instances iid fun j => { j with affirmationTimeout := bumpTimeout i }) iid
      = some { i with affirmationTimeout := bumpTimeout i } := by
    rw [instById_updateInst_any s.instances iid iid _ (by intro x; rfl) i h]
    simp [hii]
  have h2 : instById
      (updateInstS
        { (updateInstS s iid fun j => { j with affirmationTimeout := bumpTimeout i }) with
            out := s.out ++ [OutMsg.shutdownMsg i.sysAddr] }
        iid fun j => { j with isShuttingDown := true }).instances iid
      = some { i with affirmationTimeout := bumpTimeout i, isShuttingDown := true } := by
    have hx := instById_updateInst_any
      (updateInst s.instances iid fun j => { j with affirmationTimeout := bumpTimeout i })
      iid iid (fun j => { j with isShuttingDown := true }) (by intro x; rfl)
      { i with affirmationTimeout := bumpTimeout i } h1
    rw [show (updateInstS
        { (updateInstS s iid fun j => { j with affirmationTimeout := bumpTimeout i }) with
            out := s.out ++ [OutMsg.shutdownMsg i.sysAddr] }
        iid fun j => { j with isShuttingDown := true }).instances
      = updateInst (updateInst s.instances iid fun j => { j with affirmationTimeout := bumpTimeout i })
          iid fun j => { j with isShuttingDown := true } from rfl]
    rw [hx]
    simp [hii]
  refine ⟨?_, ?_⟩
  · refine redirect_out_mono _ iid _ ?_
    show OutMsg.shutdownMsg i.sysAddr ∈ s.out ++ [OutMsg.shutdownMsg i.sysAddr]
    simp
  · obtain ⟨j2, hj2, hta, htb⟩ := redirect_preserves
      (updateInstS
        { (updateInstS s iid fun j => { j with affirmationTimeout := bumpTimeout i }) with
            out := s.out ++ [OutMsg.shutdownMsg i.sysAddr] }
        iid fun j => { j with isShuttingDown := true })
      iid { i with affirmationTimeout := bumpTimeout i, isShuttingDown := true } h2
    exact ⟨j2, hj2, by simpa using htb, by rw [hta]; simpa using ht⟩

/-- Once an instance holds an unanswered affirmation and keeps holding one,
the tick counter marches from its current value to 999 and the following tick
triggers the wedge handling. -/
theorem tick_bound_aux (iid : Nat) : ∀ (n : Nat) (s : MasterState) (i : Instance),
    instById s.instances iid = some i →
    i.pendingAffirmations.isEmpty = false →
    i.affirmationTimeout + n = 999 →
    OutMsg.shutdownMsg i.sysAddr ∈ (iterTickInstance iid (n + 1) s).out ∧
    ∃ j, instById (iterTickInstance iid (n + 1) s).instances iid = some j ∧
        j.isShuttingDown = true := by
  intro n
  induction n with
  | zero =>
      intro s i h hne h999
      have ht : bumpTimeout i = 1000 := by
        unfold bumpTimeout
        rw [hne]
        simp
        omega
      have htr := processInstanceTick_trigger s iid i h ht
      simp only [iterTickInstance]
      obtain ⟨j, hj, hsd, _⟩ := htr.2
      exact ⟨htr.1, j, hj, hsd⟩
  | succ n ih =>
      intro s i h hne h999
      have hbv : bumpTimeout i = i.affirmationTimeout + 1 := by
        unfold bumpTimeout
        rw [hne]
        simp
      have ht : bumpTimeout i ≠ 1000 := by
        rw [hbv]
        omega
      have heq := processInstanceTick_no_trigger s iid i h ht
      have hii : i.iid = iid := instById_iid _ _ _ h
      have h1 : instById (processInstanceTick s iid).instances iid
          = some { i with affirmationTimeout := i.affirmationTimeout + 1 } := by
        rw [heq]
        rw [show (updateInstS s iid fun j =>
            { j with affirmationTimeout := bumpTimeout i }).instances
          = updateInst s.instances iid fun j =>
            { j with affirmationTimeout := bumpTimeout i } from rfl]
        rw [instById_updateInst_any s.instances iid iid _ (by intro x; rfl) i h]
        simp [hii, hbv]
      have hrec := ih (processInstanceTick s iid)
        { i with affirmationTimeout := i.affirmationTimeout + 1 } h1 (by simpa using hne)
        (by simp; omega)
      simpa [iterTickInstance] using hrec



/-- C2: on each tick, an instance's `affirmationTimeout` is bumped when
`pendingAffirmations` is non-empty and reset to 0 otherwise; when the bumped
value reaches exactly 1000 the instance is sent `Shutdown`, marked shutting
down, and `RedirectPendingRequests` is invoked on it (re-routing every queued
request of both queues through the normal resolution path); otherwise only the
timeout is written and nothing is sent.  Consequently, an instance that keeps
holding an unanswered affirmation triggers redirection within
`1000 - affirmationTimeout ≤ 1000` further ticks. -/
theorem affirmation_timeout_tick (s : MasterState) (iid : Nat) (i : Instance)
    (h : instById s.instances iid = some i) :
    (∃ j, instById (processInstanceTick s iid).instances iid = some j ∧
        j.affirmationTimeout = bumpTimeout i) ∧
    (bumpTimeout i = if i.pendingAffirmations.isEmpty then 0 else i.affirmationTimeout + 1) ∧
    (bumpTimeout i = 1000 →
        processInstanceTick s iid = redirectPendingRequests
          (updateInstS
            { (updateInstS s iid fun j => { j with affirmationTimeout := bumpTimeout i }) with
                out := s.out ++ [OutMsg.shutdownMsg i.sysAddr] }
            iid fun j => { j with isShuttingDown := true }) iid ∧
        OutMsg.shutdownMsg i.sysAddr ∈ (processInstanceTick s iid).out ∧
        (∃ j, instById (processInstanceTick s iid).instances iid = some j ∧
            j.isShuttingDown = true)) ∧
    (bumpTimeout i ≠ 1000 →
        processInstanceTick s iid = updateInstS s iid
          (fun j => { j with affirmationTimeout := bumpTimeout i }) ∧
        (processInstanceTick s iid).out = s.out) ∧
    (i.pendingAffirmations.isEmpty = false → i.affirmationTimeout < 1000 →
        1000 - i.affirmationTimeout ≤ 1000 ∧
        OutMsg.shutdownMsg i.sysAddr ∈ (iterTickInstance iid (1000 - i.affirmationTimeout) s).out ∧
        (∃ j, instById (iterTickInstance iid (1000 - i.affirmationTimeout) s).instances iid = some j ∧
            j.isShuttingDown = true)) := by
  have hii : i.iid = iid := instById_iid _ _ _ h
  refine ⟨?_, rfl, ?_, ?_, ?_⟩
  · by_cases htr : bumpTimeout i = 1000
    · obtain ⟨hmem, j, hj, hsd, hta⟩ := processInstanceTick_trigger s iid i h htr
      exact ⟨j, hj, by rw [hta, htr]⟩
    · refine ⟨{ i with affirmationTimeout := bumpTimeout i }, ?_, rfl⟩
      rw [processInstanceTick_no_trigger s iid i h htr]
      rw [show (updateInstS s iid fun j => { j with affirmationTimeout := bumpTimeout i }).instances
        = updateInst s.instances iid fun j => { j with affirmationTimeout := bumpTimeout i } from rfl]
      rw [instById_updateInst_any s.instances iid iid _ (by intro x; rfl) i h]
      simp [hii]
  · intro htr
    refine ⟨processInstanceTick_trigger_eq s iid i h htr,
      (processInstanceTick_trigger s iid i h htr).1, ?_⟩
    obtain ⟨j, hj, hsd, _⟩ := (processInstanceTick_trigger s iid i h htr).2
    exact ⟨j, hj, hsd⟩
  · intro htr
    refine ⟨processInstanceTick_no_trigger s iid i h htr, ?_⟩
    rw [processInstanceTick_no_trigger s iid i h htr]
    rfl
  · intro hne hlt
    have hsplit : 1000 - i.affirmationTimeout = (999 - i.affirmationTimeout) + 1 := by omega
    rw [hsplit]
    have hb := tick_bound_aux iid (999 - i.affirmationTimeout) s i h hne (by omega)
    exact ⟨by omega, hb.1, hb.2⟩

/-- Witness for C2 at a concrete input: `instWedge` sits at timeout 999 with
one unanswered affirmation, so one further tick sends it `Shutdown` and marks
it shutting down. -/
theorem affirmation_timeout_tick_witness :
    instById stateWedge.instances 0 = some instWedge ∧
    (1000 - instWedge.affirmationTimeout ≤ 1000 ∧
     OutMsg.shutdownMsg instWedge.sysAddr
       ∈ (iterTickInstance 0 (1000 - instWedge.affirmationTimeout) stateWedge).out ∧
     (∃ j, instById (iterTickInstance 0 (1000 - instWedge.affirmationTimeout) stateWedge).instances 0
         = some j ∧ j.isShuttingDown = true)) :=
  ⟨by decide,
   (affirmation_timeout_tick stateWedge 0 instWedge (by decide)).2.2.2.2 (by decide) (by decide)⟩

/-- The drain loop's exit behaviour: either it stops at the first iteration
after which every instance reports `shutdownComplete` (returning that tick
index), or no such iteration occurs within the fuel and it runs the fuel out. -/
theorem drainLoop_spec (handle : Nat → MasterState → MasterState) :
    ∀ (fuel t : Nat) (s : MasterState),
    (∃ j, j < fuel ∧
        allShutdownComplete (iterHandleFrom handle t (j + 1) s) = true ∧
        (∀ m, m < j → allShutdownComplete (iterHandleFrom handle t (m + 1) s) = false) ∧
        drainLoop handle fuel t s = (iterHandleFrom handle t (j + 1) s, t + j)) ∨
    ((∀ m, m < fuel → allShutdownComplete (iterHandleFrom handle t (m + 1) s) = false) ∧
        drainLoop handle fuel t s = (iterHandleFrom handle t fuel s, t + fuel)) := by
  intro fuel
  induction fuel with
  | zero =>
      intro t s
      right
      exact ⟨fun m hm => absurd hm (by omega), by simp [drainLoop, iterHandleFrom]⟩
  | succ fuel ih =>
      intro t s
      by_cases hdone : allShutdownComplete (handle t s) = true
      · left
        refine ⟨0, by omega, ?_, ?_, ?_⟩
        · simpa [iterHandleFrom] using hdone
        · intro m hm
          exact absurd hm (by omega)
        · simp [drainLoop, hdone, iterHandleFrom]
      · have hdone2 : allShutdownComplete (handle t s) = false := by
          cases hb : allShutdownComplete (handle t s)
          · rfl
          · exact absurd hb hdone
        have hstep : drainLoop handle (fuel + 1) t s
            = drainLoop handle fuel (t + 1) (handle t s) := by
          simp [drainLoop, hdone2]
        rcases ih (t + 1) (handle t s) with ⟨j, hj, hdj, hmj, heq⟩ | ⟨hall, heq⟩
        · left
          refine ⟨j + 1, by omega, ?_, ?_, ?_⟩
          · simpa [iterHandleFrom] using hdj
          · intro m hm
            cases m with
            | zero => simpa [iterHandleFrom] using hdone2
            | succ m =>
                have := hmj m (by omega)
                simpa [iterHandleFrom] using this
          · have harith : (t + 1) + j = t + (j + 1) := by omega
            rw [hstep, heq, harith]
            simp only [iterHandleFrom]
        · right
          refine ⟨?_, ?_⟩
          · intro m hm
            cases m with
            | zero => simpa [iterHandleFrom] using hdone2
            | succ m =>
                have := hall m (by omega)
                simpa [iterHandleFrom] using this
          · have harith : (t + 1) + fuel = t + (fuel + 1) := by omega
            rw [hstep, heq, harith]
            simp only [iterHandleFrom]

/-- C6: once the shutdown coordinator starts (not already started), it sends
`Shutdown` to every registry entry and saves the Persistent-ID high-water
mark, then drains while dispatching inbound traffic every iteration, exiting
exactly at the first iteration after which every remaining instance reports
`shutdownComplete`, or after 3600 drain ticks (600 * 6 ≈ 60 s), whichever
comes first. -/
theorem shutdown_sequence_drain (handle : Nat → MasterState → MasterState) (s : MasterState)
    (h : s.shutdownSequenceStarted = false) :
    (shutdownSequencePrep s).out
      = s.out ++ s.instances.map (fun i => OutMsg.shutdownMsg i.sysAddr) ∧
    (shutdownSequencePrep s).objIdSaved = true ∧
    ∃ n, 1 ≤ n ∧ n ≤ 3600 ∧
      (shutdownSequence handle s).1 = iterHandleFrom handle 0 n (shutdownSequencePrep s) ∧
      (allShutdownComplete (iterHandleFrom handle 0 n (shutdownSequencePrep s)) = true ∨
          n = 3600) ∧
      (∀ m, 1 ≤ m → m < n →
          allShutdownComplete (iterHandleFrom handle 0 m (shutdownSequencePrep s)) = false) := by
  refine ⟨rfl, rfl, ?_⟩
  have hseq : shutdownSequence handle s = drainLoop handle 3600 0 (shutdownSequencePrep s) := by
    simp [shutdownSequence, h]
  rcases drainLoop_spec handle 3600 0 (shutdownSequencePrep s) with
    ⟨j, hj, hdj, hmj, heq⟩ | ⟨hall, heq⟩
  · refine ⟨j + 1, by omega, by omega, ?_, Or.inl hdj, ?_⟩
    · rw [hseq, heq]
    · intro m h1 h2
      have hx := hmj (m - 1) (by omega)
      have hm : m - 1 + 1 = m := by omega
      rwa [hm] at hx
  · refine ⟨3600, by omega, by omega, ?_, Or.inr rfl, ?_⟩
    · rw [hseq, heq]
    · intro m h1 h2
      have hx := hall (m - 1) (by omega)
      have hm : m - 1 + 1 = m := by omega
      rwa [hm] at hx

/-- Witness for C6 at a concrete input: the empty fleet drains immediately
(after the single mandatory dispatch iteration). -/
theorem shutdown_sequence_drain_witness :
    (shutdownSequencePrep emptyState).objIdSaved = true ∧
    (∃ n, 1 ≤ n ∧ n ≤ 3600 ∧
      (shutdownSequence (fun _ s => s) emptyState).1
        = iterHandleFrom (fun _ s => s) 0 n (shutdownSequencePrep emptyState) ∧
      (allShutdownComplete (iterHandleFrom (fun _ s => s) 0 n (shutdownSequencePrep emptyState))
          = true ∨ n = 3600) ∧
      (∀ m, 1 ≤ m → m < n →
          allShutdownComplete (iterHandleFrom (fun _ s => s) 0 m (shutdownSequencePrep emptyState))
            = false)) :=
  ⟨(shutdown_sequence_drain (fun _ s => s) emptyState rfl).2.1,
   (shutdown_sequence_drain (fun _ s => s) emptyState rfl).2.2⟩
